import Mathlib

/-!
Verification of the conversation throttle, error classifier and directive
extractor of the `ai-support-chatbot` chat widget
(`src/components/chatbot/index.tsx`), of the deny branch of the API route
(`POST`), and of the configuration defaults (`src/lib/config.ts`).

The JavaScript code is embedded shallowly:
- strings are Lean `String`s (lists of characters), with the JavaScript
  whitespace class, `trim`, `toLowerCase` and `includes` modelled explicitly;
- the two directive regexes and the blank-line-collapsing regex of
  `MarkdownWithButtons` are modelled by explicit left-to-right scanners that
  reproduce the match/replace semantics of `RegExp.exec` and
  `String.replace` with the `g` flag on these particular patterns;
- the component state (`isRateLimited`, `rateLimitCountdown`,
  `lastMessageTime`, `messages`) together with the queue of `setTimeout`
  callbacks forms a state machine; an event (submit, error callback, clear,
  or mere passage of time) first fires every timer that has come due — as
  the single-threaded JS runtime does — and then runs the handler.
-/

/-! ## JavaScript string primitives -/

/-- The ASCII part of the JavaScript `\s` class (space, tab, newline,
carriage return, vertical tab, form feed). -/
def jsWhitespace (c : Char) : Bool :=
  c = ' ' || c = '\t' || c = '\n' || c = '\r' || c = '\x0b' || c = '\x0c'

/-- Strip leading and trailing whitespace from a character list
(JavaScript `String.prototype.trim`). -/
def trimChars (l : List Char) : List Char :=
  ((l.dropWhile jsWhitespace).reverse.dropWhile jsWhitespace).reverse

/-- JavaScript `String.prototype.trim`. -/
def jsTrimStr (s : String) : String :=
  String.mk (trimChars s.data)

/-- JavaScript `String.prototype.toLowerCase` on one character
(ASCII range; the messages handled by the widget are ASCII). -/
def jsLowerChar (c : Char) : Char :=
  if 65 ≤ c.toNat ∧ c.toNat ≤ 90 then Char.ofNat (c.toNat + 32) else c

/-- JavaScript `String.prototype.toLowerCase`. -/
def jsToLower (s : String) : String :=
  String.mk (s.data.map jsLowerChar)

/-- Does `pat` occur as a contiguous substring of the list? -/
def containsSub (pat : List Char) : List Char → Bool
  | [] => pat.isPrefixOf []
  | c :: cs => pat.isPrefixOf (c :: cs) || containsSub pat cs

/-- JavaScript `s.includes(pat)`. -/
def jsIncludes (s pat : String) : Bool :=
  containsSub pat.data s.data

/-! ## Directive extraction (`MarkdownWithButtons`)

The component runs
`/\x7b\x7bchoice:([^\x7d]+)\x7d\x7d/g` and
`/\x7b\x7blink:([^|]+)\|([^\x7d]+)\x7d\x7d/g`
over the message text with `exec`, removes both kinds of tag with
`replace`, collapses runs of blank lines with
`replace(/\n\s*\n\s*\n/g, "\n\n")` and trims. -/

def choiceTagPre : List Char := "\x7b\x7bchoice:".data

def linkTagPre : List Char := "\x7b\x7blink:".data

/-- Attempt to match `\x7b\x7bchoice:([^\x7d]+)\x7d\x7d` at the head of the
list.  On success, return the capture and the total length of the match.
Because `[^\x7d]+` cannot match `\x7d`, backtracking never helps: the regex
matches here exactly when the literal prefix is followed by a non-empty run
of non-`\x7d` characters and then two `\x7d`. -/
def matchChoiceAt (l : List Char) : Option (List Char × Nat) :=
  if choiceTagPre.isPrefixOf l then
    let r1 := l.drop choiceTagPre.length
    let cap := r1.takeWhile (fun c => !(c == '\x7d'))
    let r2 := r1.drop cap.length
    if 0 < cap.length ∧ List.isPrefixOf ['\x7d', '\x7d'] r2 = true then
      some (cap, choiceTagPre.length + cap.length + 2)
    else none
  else none

/-- Attempt to match `\x7b\x7blink:([^|]+)\|([^\x7d]+)\x7d\x7d` at the head
of the list, returning the two captures and the match length. -/
def matchLinkAt (l : List Char) : Option ((List Char × List Char) × Nat) :=
  if linkTagPre.isPrefixOf l then
    let r1 := l.drop linkTagPre.length
    let url := r1.takeWhile (fun c => !(c == '|'))
    let r2 := r1.drop url.length
    if 0 < url.length ∧ List.isPrefixOf ['|'] r2 = true then
      let r3 := r2.drop 1
      let lab := r3.takeWhile (fun c => !(c == '\x7d'))
      let r4 := r3.drop lab.length
      if 0 < lab.length ∧ List.isPrefixOf ['\x7d', '\x7d'] r4 = true then
        some ((url, lab), linkTagPre.length + url.length + 1 + lab.length + 2)
      else none
    else none
  else none

/-- Left-to-right scan of `exec`/`replace` with the choice regex: collect
every non-overlapping match and simultaneously delete the matched spans.
The fuel argument (instantiated with the length of the list) makes the
recursion structural; every step consumes at least one character. -/
def scanChoiceF : Nat → List Char → List (List Char) × List Char
  | 0, l => ([], l)
  | _ + 1, [] => ([], [])
  | fuel + 1, c :: cs =>
    match matchChoiceAt (c :: cs) with
    | some (cap, k) =>
      let r := scanChoiceF fuel ((c :: cs).drop k)
      (cap :: r.1, r.2)
    | none =>
      let r := scanChoiceF fuel cs
      (r.1, c :: r.2)

def scanChoice (l : List Char) : List (List Char) × List Char :=
  scanChoiceF l.length l

/-- Left-to-right scan for the link regex. -/
def scanLinkF : Nat → List Char → List (List Char × List Char) × List Char
  | 0, l => ([], l)
  | _ + 1, [] => ([], [])
  | fuel + 1, c :: cs =>
    match matchLinkAt (c :: cs) with
    | some (cap, k) =>
      let r := scanLinkF fuel ((c :: cs).drop k)
      (cap :: r.1, r.2)
    | none =>
      let r := scanLinkF fuel cs
      (r.1, c :: r.2)

def scanLink (l : List Char) : List (List Char × List Char) × List Char :=
  scanLinkF l.length l

/-- Attempt to match `\n\s*\n\s*\n` at the head of the list, returning the
length of the (leftmost-greedy) match.  Since `\s` includes `\n`, the regex
matches here exactly when the maximal whitespace run starting at the
leading `\n` contains at least three `\n`; greedy backtracking makes the
match extend to the last `\n` of that run. -/
def matchBlankAt (l : List Char) : Option Nat :=
  match l with
  | [] => none
  | c :: _ =>
    if c = '\n' then
      let run := l.takeWhile jsWhitespace
      if 3 ≤ run.countP (fun c2 => c2 == '\n') then
        some ((run.reverse.dropWhile (fun c2 => !(c2 == '\n'))).reverse).length
      else none
    else none

/-- The `replace(/\n\s*\n\s*\n/g, "\n\n")` pass. -/
def collapseF : Nat → List Char → List Char
  | 0, l => l
  | _ + 1, [] => []
  | fuel + 1, c :: cs =>
    match matchBlankAt (c :: cs) with
    | some k => '\n' :: '\n' :: collapseF fuel ((c :: cs).drop k)
    | none => c :: collapseF fuel cs

def collapseScan (l : List Char) : List Char :=
  collapseF l.length l

/-- The directive extraction of `MarkdownWithButtons`: choices and links are
collected from the original text (`exec` loops), and the cleaned markdown
is the text with choice tags removed, then link tags removed, then blank
lines collapsed, then trimmed — exactly the chained `replace` calls. -/
def extractDirectives (text : String) : String × List String × List (String × String) :=
  let cs := text.data
  let conversationChoices := (scanChoice cs).1.map (fun cap => String.mk (trimChars cap))
  let linkButtons := (scanLink cs).1.map
    (fun p => (String.mk (trimChars p.1), String.mk (trimChars p.2)))
  let cleanMarkdown := trimChars (collapseScan ((scanLink ((scanChoice cs).2)).2))
  (String.mk cleanMarkdown, conversationChoices, linkButtons)

/-! ## Scanner lemmas -/

theorem scanChoiceF_no_match (fuel : Nat) :
    ∀ l : List Char, (scanChoiceF fuel l).1 = [] → (scanChoiceF fuel l).2 = l := by
  induction fuel with
  | zero => intro l _; rfl
  | succ n ih =>
    intro l h
    cases l with
    | nil => rfl
    | cons c cs =>
      cases hm : matchChoiceAt (c :: cs) with
      | some p =>
        exfalso
        simp only [scanChoiceF, hm] at h
        exact absurd h (List.cons_ne_nil _ _)
      | none =>
        simp only [scanChoiceF, hm] at h ⊢
        rw [ih cs h]

theorem scanLinkF_no_match (fuel : Nat) :
    ∀ l : List Char, (scanLinkF fuel l).1 = [] → (scanLinkF fuel l).2 = l := by
  induction fuel with
  | zero => intro l _; rfl
  | succ n ih =>
    intro l h
    cases l with
    | nil => rfl
    | cons c cs =>
      cases hm : matchLinkAt (c :: cs) with
      | some p =>
        exfalso
        simp only [scanLinkF, hm] at h
        exact absurd h (List.cons_ne_nil _ _)
      | none =>
        simp only [scanLinkF, hm] at h ⊢
        rw [ih cs h]

/-! ## Sanity checks for the extractor (spec §8, examples 8 and 9) -/

example :
    extractDirectives "plain text\n\n\n\nmore" = ("plain text\n\nmore", [], []) := by
  decide

example :
    extractDirectives "unterminated \x7b\x7bchoice:Oops" =
      ("unterminated \x7b\x7bchoice:Oops", [], []) := by
  decide

/-! ## Configuration (`src/lib/config.ts`)

Only the values consumed by the widget core are modelled.  The defaults
below are the schema/env defaults of `baseConfig` (no environment
overrides): `interval` is in seconds, `minTimeBetweenMessages` in
milliseconds, `maxMessageLength` in characters. -/

structure RateLimitConfig where
  capacity : Nat
  refillRate : Nat
  interval : Nat
  minTimeBetweenMessages : Nat
  maxMessageLength : Nat
deriving DecidableEq

structure ChatConfig where
  welcomeMessage : String
  rateLimit : RateLimitConfig
deriving DecidableEq

def chatbotConfig : ChatConfig :=
  { welcomeMessage := "Hello! I'm your AI Assistant. What can I help you with today? \x7b\x7bchoice:See Features\x7d\x7d \x7b\x7blink:https://github.com/DeDevsClub/create-next-chatbot|Source Code\x7d\x7d"
    rateLimit :=
      { capacity := 5
        refillRate := 2
        interval := 10
        minTimeBetweenMessages := 1000
        maxMessageLength := 1000 } }

/-! ## Widget state (`ChatBot` component)

`Msg` models a chat message; the unique `id` strings are generated by the
`useChat` collaborator and are not relevant to any claim, so only role and
text are kept.  `Timer` models a pending `setTimeout` callback: the two
callbacks the component ever schedules either clear both rate-limit fields
or clear only the countdown. -/

inductive Role
  | user
  | assistant
deriving DecidableEq

structure Msg where
  role : Role
  text : String
deriving DecidableEq

inductive TimerKind
  | rateLimitClear
  | genericClear
deriving DecidableEq

structure Timer where
  due : Nat
  kind : TimerKind
deriving DecidableEq

structure ChatState where
  isRateLimited : Bool
  rateLimitCountdown : Option Nat
  lastMessageTime : Nat
  messages : List Msg
  timers : List Timer
deriving DecidableEq

/-- The seeded assistant welcome message (id "welcome" in the source). -/
def welcomeMsg (cfg : ChatConfig) : Msg :=
  { role := Role.assistant, text := cfg.welcomeMessage }

/-- Component state at mount: `lastMessageTime` is initialised with
`Date.now()` (`useRef(Date.now())`), i.e. the mount instant. -/
def initState (cfg : ChatConfig) (mountTime : Nat) : ChatState :=
  { isRateLimited := false
    rateLimitCountdown := none
    lastMessageTime := mountTime
    messages := [welcomeMsg cfg]
    timers := [] }

/-! ## Error classification (`onError`) -/

/-- The `ErrorMessage` shape the component casts errors to: an optional
numeric `status`, an optional numeric `statusCode`, and an optional
free-text `message` (all reads are optional-chained in the source). -/
structure ErrorMessage where
  status : Option Nat
  statusCode : Option Nat
  message : Option String
deriving DecidableEq

/-- The `isRateLimit` test of `onError`:
`status === 429 || statusCode === 429 || message?.includes("429") ||
message?.toLowerCase().includes("rate limit") ||
message?.toLowerCase().includes("too many requests")`. -/
def isRateLimitError (e : ErrorMessage) : Bool :=
  e.status == some 429 || e.statusCode == some 429 ||
    (match e.message with
     | some m =>
       jsIncludes m "429" || jsIncludes (jsToLower m) "rate limit" ||
         jsIncludes (jsToLower m) "too many requests"
     | none => false)

/-- The timer predicate for the rate-limit-clearing callback. -/
def isRlTimer (t : Timer) : Bool :=
  match t.kind with
  | TimerKind.rateLimitClear => true
  | TimerKind.genericClear => false

/-- The timer predicate for the countdown-clearing callback. -/
def isGenTimer (t : Timer) : Bool :=
  match t.kind with
  | TimerKind.rateLimitClear => false
  | TimerKind.genericClear => true

/-- Fire every pending `setTimeout` callback that has come due at `now`.
The two callbacks are unconditional field writes
(`setIsRateLimited(false); setRateLimitCountdown(null)` and
`setRateLimitCountdown(null)`), so the resulting state does not depend on
their relative firing order. -/
def fireDue (now : Nat) (s : ChatState) : ChatState :=
  let fired := s.timers.filter (fun t => t.due ≤ now)
  let hasRl := fired.any isRlTimer
  let hasGen := fired.any isGenTimer
  { s with
    isRateLimited := if hasRl then false else s.isRateLimited
    rateLimitCountdown := if hasRl || hasGen then none else s.rateLimitCountdown
    timers := s.timers.filter (fun t => !(decide (t.due ≤ now))) }

/-- The `onError` callback of `useChat`: classify, set the cooldown fields,
and schedule one clearing callback. -/
def onError (cfg : ChatConfig) (now : Nat) (e : ErrorMessage) (s : ChatState) : ChatState :=
  if isRateLimitError e then
    { s with
      isRateLimited := true
      rateLimitCountdown := some cfg.rateLimit.interval
      timers := s.timers ++
        [{ due := now + cfg.rateLimit.interval * 1000, kind := TimerKind.rateLimitClear }] }
  else
    { s with
      rateLimitCountdown := some 5
      timers := s.timers ++ [{ due := now + 5000, kind := TimerKind.genericClear }] }

/-- `sendMessageWithThrottle`: drop the send when less than
`minTimeBetweenMessages` ms have passed since the last accepted send or
when rate limited; otherwise record the send time and dispatch the text,
which optimistically appends a user message. -/
def sendMessageWithThrottle (cfg : ChatConfig) (now : Nat) (text : String) (s : ChatState) :
    ChatState :=
  if now - s.lastMessageTime < cfg.rateLimit.minTimeBetweenMessages then s
  else if s.isRateLimited = true then s
  else
    { s with
      lastMessageTime := now
      messages := s.messages ++ [{ role := Role.user, text := text }] }

/-- `handleSubmit`: guard on non-empty trimmed input, not rate limited, and
the length bound, then delegate to the throttled send. -/
def handleSubmit (cfg : ChatConfig) (now : Nat) (input : String) (s : ChatState) : ChatState :=
  if jsTrimStr input ≠ "" ∧ s.isRateLimited = false ∧
      input.length ≤ cfg.rateLimit.maxMessageLength then
    sendMessageWithThrottle cfg now input s
  else s

/-- `clearMessages`: reset the two rate-limit fields and replace the
conversation with the seeded welcome message.  The `lastMessageTime` ref
and any pending timers are untouched in the source. -/
def clearMessages (cfg : ChatConfig) (s : ChatState) : ChatState :=
  { s with
    isRateLimited := false
    rateLimitCountdown := none
    messages := [welcomeMsg cfg] }

/-! ## Event semantics -/

inductive ChatEvent
  | submit (input : String)
  | chatError (e : ErrorMessage)
  | clear
  | tick
deriving DecidableEq

/-- One event at absolute time `now` (ms): due timer callbacks run first,
then the handler. -/
def step (cfg : ChatConfig) (s : ChatState) (now : Nat) (ev : ChatEvent) : ChatState :=
  let s1 := fireDue now s
  match ev with
  | ChatEvent.submit input => handleSubmit cfg now input s1
  | ChatEvent.chatError e => onError cfg now e s1
  | ChatEvent.clear => clearMessages cfg s1
  | ChatEvent.tick => s1

/-- Run a timed event list from a state. -/
def run (cfg : ChatConfig) (s : ChatState) : List (Nat × ChatEvent) → ChatState
  | [] => s
  | p :: rest => run cfg (step cfg s p.1 p.2) rest

/-! ## API route deny branch (`POST`) -/

inductive DenyReason
  | rateLimit
  | bot
  | shield
  | other
deriving DecidableEq

/-- The `decision.isDenied()` branch of the API route: status and
plain-text body per deny reason, in the order the source tests them. -/
def postDenyResponse (r : DenyReason) : Nat × String :=
  match r with
  | DenyReason.rateLimit => (429, "Too many requests. Please try again later.")
  | DenyReason.bot => (403, "Bot detected. Access denied.")
  | DenyReason.shield => (400, "Content filtered. Please modify your message.")
  | DenyReason.other => (403, "Access denied.")

/-! ## Case-insensitivity lemmas

The source checks `message.includes("429")` on the original string while
the spec phrases all three patterns as case-insensitive containment.  For
the all-digit pattern "429" the two coincide because `toLowerCase` fixes
every character whose code point is below 65. -/

theorem charToNat_ofNat_valid (n : Nat) (h : Nat.isValidChar n) :
    (Char.ofNat n).toNat = n := by
  unfold Char.ofNat
  rw [dif_pos h]
  rfl

theorem jsLowerChar_eq_iff (c d : Char) (hd : d.toNat < 65) :
    (jsLowerChar c = d) ↔ (c = d) := by
  unfold jsLowerChar
  split_ifs with h
  · constructor
    · intro he
      exfalso
      have h1 : (Char.ofNat (c.toNat + 32)).toNat = c.toNat + 32 :=
        charToNat_ofNat_valid _ (Or.inl (by omega))
      rw [he] at h1
      omega
    · intro he
      subst he
      omega
  · exact Iff.rfl

theorem beq_jsLowerChar (p c : Char) (hp : p.toNat < 65) :
    (p == jsLowerChar c) = (p == c) := by
  have hiff := jsLowerChar_eq_iff c p hp
  by_cases h : p = c
  · subst h
    rw [hiff.mpr rfl]
  · have h2 : jsLowerChar c ≠ p := fun hx => h (hiff.mp hx).symm
    have e1 : (p == jsLowerChar c) = false := by
      simp [Ne.symm h2]
    have e2 : (p == c) = false := by
      simp [h]
    rw [e1, e2]

theorem isPrefixOf_429_map (l : List Char) :
    List.isPrefixOf "429".data (l.map jsLowerChar) = List.isPrefixOf "429".data l := by
  have h429 : "429".data = ['4', '2', '9'] := by decide
  rw [h429]
  have h4 : ∀ c, (('4' : Char) == jsLowerChar c) = (('4' : Char) == c) :=
    fun c => beq_jsLowerChar _ c (by decide)
  have h2 : ∀ c, (('2' : Char) == jsLowerChar c) = (('2' : Char) == c) :=
    fun c => beq_jsLowerChar _ c (by decide)
  have h9 : ∀ c, (('9' : Char) == jsLowerChar c) = (('9' : Char) == c) :=
    fun c => beq_jsLowerChar _ c (by decide)
  match l with
  | [] => rfl
  | [a] => simp [List.isPrefixOf]
  | [a, b] => simp [List.isPrefixOf]
  | a :: b :: c :: t => simp [List.isPrefixOf, h4, h2, h9]

theorem containsSub_429_map (l : List Char) :
    containsSub "429".data (l.map jsLowerChar) = containsSub "429".data l := by
  induction l with
  | nil => rfl
  | cons a t ih =>
    show containsSub "429".data (jsLowerChar a :: t.map jsLowerChar) = _
    rw [containsSub, containsSub]
    rw [show jsLowerChar a :: t.map jsLowerChar = (a :: t).map jsLowerChar from rfl]
    rw [isPrefixOf_429_map, ih]

/-! ## Spec-side formulations of the classification rule -/

/-- Case-insensitive containment, as the spec words it: both the text and
the pattern are lower-cased before the containment test. -/
def containsCaseInsensitive (m pat : String) : Bool :=
  jsIncludes (jsToLower m) (jsToLower pat)

/-- The spec message condition: the free text contains (case-insensitively)
"429", "rate limit", or "too many requests". -/
def specMsgMatch (e : ErrorMessage) : Bool :=
  match e.message with
  | some m =>
    containsCaseInsensitive m "429" || containsCaseInsensitive m "rate limit" ||
      containsCaseInsensitive m "too many requests"
  | none => false

/-- The rate-limit classification exactly as claim C1 words it: status 429
or a matching message — with no mention of `statusCode`. -/
def claimIsRateLimitC1 (e : ErrorMessage) : Bool :=
  e.status == some 429 || specMsgMatch e

/-- The amended classification rule: status 429, statusCode 429, or a
matching message. -/
def specIsRateLimitAmended (e : ErrorMessage) : Bool :=
  e.status == some 429 || e.statusCode == some 429 || specMsgMatch e

/-- The classifier of the source agrees with the amended spec-side rule for
every error object. -/
theorem isRateLimitError_eq_spec (e : ErrorMessage) :
    isRateLimitError e = specIsRateLimitAmended e := by
  obtain ⟨st, stc, msg⟩ := e
  cases msg with
  | none => rfl
  | some m =>
    show (st == some 429 || stc == some 429 ||
        (jsIncludes m "429" || jsIncludes (jsToLower m) "rate limit" ||
          jsIncludes (jsToLower m) "too many requests")) =
      (st == some 429 || stc == some 429 ||
        (containsCaseInsensitive m "429" || containsCaseInsensitive m "rate limit" ||
          containsCaseInsensitive m "too many requests"))
    have e429 : containsCaseInsensitive m "429" = jsIncludes m "429" := by
      show containsSub (jsToLower "429").data (jsToLower m).data = containsSub "429".data m.data
      rw [show jsToLower "429" = "429" from by decide]
      show containsSub "429".data (m.data.map jsLowerChar) = containsSub "429".data m.data
      exact containsSub_429_map m.data
    have erl : containsCaseInsensitive m "rate limit" = jsIncludes (jsToLower m) "rate limit" := by
      show containsSub (jsToLower "rate limit").data (jsToLower m).data = _
      rw [show jsToLower "rate limit" = "rate limit" from by decide]
      rfl
    have etm : containsCaseInsensitive m "too many requests" =
        jsIncludes (jsToLower m) "too many requests" := by
      show containsSub (jsToLower "too many requests").data (jsToLower m).data = _
      rw [show jsToLower "too many requests" = "too many requests" from by decide]
      rfl
    rw [e429, erl, etm]

/-! ## State machine helper lemmas -/

/-- A submit never touches the rate-limit fields or the timer queue. -/
theorem handleSubmit_throttleFields (cfg : ChatConfig) (now : Nat) (input : String)
    (s : ChatState) :
    (handleSubmit cfg now input s).isRateLimited = s.isRateLimited ∧
      (handleSubmit cfg now input s).rateLimitCountdown = s.rateLimitCountdown ∧
      (handleSubmit cfg now input s).timers = s.timers := by
  unfold handleSubmit sendMessageWithThrottle
  split
  · split
    · exact ⟨rfl, rfl, rfl⟩
    · split
      · exact ⟨rfl, rfl, rfl⟩
      · exact ⟨rfl, rfl, rfl⟩
  · exact ⟨rfl, rfl, rfl⟩

/-- A submit made less than `minTimeBetweenMessages` ms after the recorded
last send is silently dropped: the state is unchanged. -/
theorem submit_too_soon (cfg : ChatConfig) (now : Nat) (input : String) (s : ChatState)
    (h : now - s.lastMessageTime < cfg.rateLimit.minTimeBetweenMessages) :
    handleSubmit cfg now input s = s := by
  unfold handleSubmit sendMessageWithThrottle
  split_ifs <;> rfl

/-- The kinds of the pending timers, in order. -/
def timerKinds (s : ChatState) : List TimerKind :=
  s.timers.map Timer.kind

/-- The cooldown invariant, strengthened to an inductive one: either a
rate-limit cooldown is pending (flag set, countdown set, one rate-limit
clearing timer), or a generic cooldown is pending (flag clear, countdown
set, one generic clearing timer), or the machine is idle. -/
def InvC2 (s : ChatState) : Prop :=
  (s.isRateLimited = true ∧ s.rateLimitCountdown ≠ none ∧
      timerKinds s = [TimerKind.rateLimitClear]) ∨
    (s.isRateLimited = false ∧ s.rateLimitCountdown ≠ none ∧
      timerKinds s = [TimerKind.genericClear]) ∨
    (s.isRateLimited = false ∧ s.rateLimitCountdown = none ∧ s.timers = [])

/-- The restriction the stale-timer behaviour of the source forces on the
invariant: error classification and clearing must only happen while no
cooldown timer is pending. -/
def stepAllowed (s : ChatState) (now : Nat) (ev : ChatEvent) : Prop :=
  match ev with
  | ChatEvent.chatError _ => (fireDue now s).timers = []
  | ChatEvent.clear => (fireDue now s).timers = []
  | _ => True

/-- The invariant only reads three fields. -/
theorem InvC2_congr (s s' : ChatState)
    (h1 : s'.isRateLimited = s.isRateLimited)
    (h2 : s'.rateLimitCountdown = s.rateLimitCountdown)
    (h3 : s'.timers = s.timers) (hI : InvC2 s) : InvC2 s' := by
  unfold InvC2 timerKinds at *
  rw [h1, h2, h3]
  exact hI

/-- Firing due timers preserves the invariant. -/
theorem InvC2_fireDue (now : Nat) (s : ChatState) (hI : InvC2 s) : InvC2 (fireDue now s) := by
  rcases hI with ⟨h1, h2, h3⟩ | ⟨h1, h2, h3⟩ | ⟨h1, h2, h3⟩
  · obtain ⟨tm, htm, hk⟩ : ∃ tm, s.timers = [tm] ∧ tm.kind = TimerKind.rateLimitClear := by
      cases hts : s.timers with
      | nil => rw [timerKinds, hts] at h3; simp at h3
      | cons a l =>
        cases l with
        | nil =>
          rw [timerKinds, hts] at h3
          simp at h3
          exact ⟨a, rfl, h3⟩
        | cons b l2 => rw [timerKinds, hts] at h3; simp at h3
    by_cases hdue : tm.due ≤ now
    · right; right
      refine ⟨?_, ?_, ?_⟩ <;>
        simp [fireDue, htm, hdue, hk, isRlTimer, isGenTimer]
    · left
      refine ⟨?_, ?_, ?_⟩ <;>
        simp [fireDue, htm, hdue, hk, isRlTimer, isGenTimer, timerKinds, h1, h2]
  · obtain ⟨tm, htm, hk⟩ : ∃ tm, s.timers = [tm] ∧ tm.kind = TimerKind.genericClear := by
      cases hts : s.timers with
      | nil => rw [timerKinds, hts] at h3; simp at h3
      | cons a l =>
        cases l with
        | nil =>
          rw [timerKinds, hts] at h3
          simp at h3
          exact ⟨a, rfl, h3⟩
        | cons b l2 => rw [timerKinds, hts] at h3; simp at h3
    by_cases hdue : tm.due ≤ now
    · right; right
      refine ⟨?_, ?_, ?_⟩ <;>
        simp [fireDue, htm, hdue, hk, isRlTimer, isGenTimer, h1]
    · right; left
      refine ⟨?_, ?_, ?_⟩ <;>
        simp [fireDue, htm, hdue, hk, isRlTimer, isGenTimer, timerKinds, h1, h2]
  · right; right
    refine ⟨?_, ?_, ?_⟩ <;> simp [fireDue, h3, h1, h2]

/-! ## Claims about submit, clear and the API route -/

/-- C3: two submit calls with valid, non-empty, in-length text where the
second occurs less than `minTimeBetweenMessages` ms after the first
accepted send: only the first appends a user message and records its send
time; the second leaves the state (in particular `lastMessageTime`)
completely unchanged. -/
theorem C3_throttle_drop (cfg : ChatConfig) (s : ChatState) (t1 t2 : Nat)
    (input1 input2 : String)
    (hrl : s.isRateLimited = false)
    (h1a : jsTrimStr input1 ≠ "") (h1b : input1.length ≤ cfg.rateLimit.maxMessageLength)
    (h2a : jsTrimStr input2 ≠ "") (h2b : input2.length ≤ cfg.rateLimit.maxMessageLength)
    (hgap : cfg.rateLimit.minTimeBetweenMessages ≤ t1 - s.lastMessageTime)
    (hsoon : t2 - t1 < cfg.rateLimit.minTimeBetweenMessages) :
    (handleSubmit cfg t1 input1 s).messages =
        s.messages ++ [{ role := Role.user, text := input1 }] ∧
      (handleSubmit cfg t1 input1 s).lastMessageTime = t1 ∧
      handleSubmit cfg t2 input2 (handleSubmit cfg t1 input1 s) =
        handleSubmit cfg t1 input1 s := by
  have hacc : handleSubmit cfg t1 input1 s =
      { s with
        lastMessageTime := t1
        messages := s.messages ++ [{ role := Role.user, text := input1 }] } := by
    unfold handleSubmit sendMessageWithThrottle
    rw [if_pos ⟨h1a, hrl, h1b⟩, if_neg (by omega), if_neg (by simp [hrl])]
  refine ⟨by rw [hacc], by rw [hacc], ?_⟩
  rw [hacc]
  exact submit_too_soon cfg t2 input2 _ hsoon

/-- Closed witness for C3 at the default configuration. -/
theorem C3_throttle_drop_witness :
    ((initState chatbotConfig 0).isRateLimited = false ∧
        jsTrimStr "hi" ≠ "" ∧ ("hi" : String).length ≤ chatbotConfig.rateLimit.maxMessageLength ∧
        jsTrimStr "there" ≠ "" ∧
        ("there" : String).length ≤ chatbotConfig.rateLimit.maxMessageLength ∧
        chatbotConfig.rateLimit.minTimeBetweenMessages ≤
          1000 - (initState chatbotConfig 0).lastMessageTime ∧
        1500 - 1000 < chatbotConfig.rateLimit.minTimeBetweenMessages) ∧
      ((handleSubmit chatbotConfig 1000 "hi" (initState chatbotConfig 0)).messages =
          (initState chatbotConfig 0).messages ++ [{ role := Role.user, text := "hi" }] ∧
        (handleSubmit chatbotConfig 1000 "hi" (initState chatbotConfig 0)).lastMessageTime =
          1000 ∧
        handleSubmit chatbotConfig 1500 "there"
            (handleSubmit chatbotConfig 1000 "hi" (initState chatbotConfig 0)) =
          handleSubmit chatbotConfig 1000 "hi" (initState chatbotConfig 0)) :=
  ⟨⟨rfl, by decide, by decide, by decide, by decide, by decide, by decide⟩,
    C3_throttle_drop chatbotConfig (initState chatbotConfig 0) 1000 1500 "hi" "there"
      rfl (by decide) (by decide) (by decide) (by decide) (by decide) (by decide)⟩

/-- C7: when any submit precondition fails — empty trimmed input, an
active rate limit, or input longer than `maxMessageLength` — the submit is
a complete no-op: the state, hence the conversation and every throttle
field, is unchanged. -/
theorem C7_guard_noop (cfg : ChatConfig) (now : Nat) (raw : String) (s : ChatState)
    (h : jsTrimStr raw = "" ∨ s.isRateLimited = true ∨
      cfg.rateLimit.maxMessageLength < raw.length) :
    handleSubmit cfg now raw s = s := by
  unfold handleSubmit
  rw [if_neg]
  rintro ⟨g1, g2, g3⟩
  rcases h with h | h | h
  · exact g1 h
  · rw [h] at g2
    exact Bool.noConfusion g2
  · omega

/-- Closed witness for C7: whitespace-only input on the initial state. -/
theorem C7_guard_noop_witness :
    (jsTrimStr "   " = "" ∨ (initState chatbotConfig 0).isRateLimited = true ∨
        chatbotConfig.rateLimit.maxMessageLength < ("   " : String).length) ∧
      handleSubmit chatbotConfig 700 "   " (initState chatbotConfig 0) =
        initState chatbotConfig 0 :=
  ⟨Or.inl (by decide),
    C7_guard_noop chatbotConfig 700 "   " (initState chatbotConfig 0) (Or.inl (by decide))⟩

/-- C8 counterexample: after an accepted send at t = 1000 ms, `clear()`
leaves `lastMessageTime` at 1000, not at its initial (mount) value 0 — the
source resets only the rate-limit fields and the conversation, never the
`lastMessageTime` ref. -/
theorem C8_counterexample :
    (clearMessages chatbotConfig
          (handleSubmit chatbotConfig 1000 "hi" (initState chatbotConfig 0))).lastMessageTime =
        1000 ∧
      (initState chatbotConfig 0).lastMessageTime = 0 ∧
      (clearMessages chatbotConfig
          (handleSubmit chatbotConfig 1000 "hi" (initState chatbotConfig 0))).lastMessageTime ≠
        (initState chatbotConfig 0).lastMessageTime := by
  refine ⟨by decide, rfl, by decide⟩

/-- C8 (amended): `clear()` has no preconditions, always resets
`rateLimited` to false and the countdown to none, replaces the conversation
with the singleton seeded welcome message, and is idempotent — but it
preserves the current `lastMessageTime` (and any pending timers) instead of
restoring the initial throttle state. -/
theorem C8_amended_clear (cfg : ChatConfig) (s : ChatState) :
    (clearMessages cfg s).isRateLimited = false ∧
      (clearMessages cfg s).rateLimitCountdown = none ∧
      (clearMessages cfg s).messages = [welcomeMsg cfg] ∧
      (clearMessages cfg s).lastMessageTime = s.lastMessageTime ∧
      (clearMessages cfg s).timers = s.timers ∧
      clearMessages cfg (clearMessages cfg s) = clearMessages cfg s :=
  ⟨rfl, rfl, rfl, rfl, rfl, rfl⟩

/-- C9: the deny branch of the API route returns 429 for a rate-limit
denial, 403 for a bot denial and 400 for a shield denial, each with its
plain-text body; the 429 pair is classified as a rate limit by the widget
classifier while the bot and shield pairs are not. -/
theorem C9_deny_status :
    postDenyResponse DenyReason.rateLimit =
        (429, "Too many requests. Please try again later.") ∧
      postDenyResponse DenyReason.bot = (403, "Bot detected. Access denied.") ∧
      postDenyResponse DenyReason.shield =
        (400, "Content filtered. Please modify your message.") ∧
      isRateLimitError
          { status := some (postDenyResponse DenyReason.rateLimit).1
            statusCode := none
            message := some (postDenyResponse DenyReason.rateLimit).2 } = true ∧
      isRateLimitError
          { status := some (postDenyResponse DenyReason.bot).1
            statusCode := none
            message := some (postDenyResponse DenyReason.bot).2 } = false ∧
      isRateLimitError
          { status := some (postDenyResponse DenyReason.shield).1
            statusCode := none
            message := some (postDenyResponse DenyReason.shield).2 } = false := by
  refine ⟨rfl, rfl, rfl, by decide, by decide, by decide⟩

/-- C10: `lastMessageTime` is initialised to the mount instant, so a first
submit with fully valid text made less than `minTimeBetweenMessages` ms
after mount is silently dropped even though nothing was ever sent. -/
theorem C10_first_submit_dropped (cfg : ChatConfig) (mount t : Nat) (input : String)
    (hin1 : jsTrimStr input ≠ "") (hin2 : input.length ≤ cfg.rateLimit.maxMessageLength)
    (hsoon : t - mount < cfg.rateLimit.minTimeBetweenMessages) :
    (initState cfg mount).lastMessageTime = mount ∧
      handleSubmit cfg t input (initState cfg mount) = initState cfg mount :=
  ⟨rfl, submit_too_soon cfg t input (initState cfg mount) hsoon⟩

/-- Closed witness for C10: a valid submit 500 ms after mount is dropped. -/
theorem C10_first_submit_dropped_witness :
    (jsTrimStr "hi" ≠ "" ∧ ("hi" : String).length ≤ chatbotConfig.rateLimit.maxMessageLength ∧
        500 - 0 < chatbotConfig.rateLimit.minTimeBetweenMessages) ∧
      ((initState chatbotConfig 0).lastMessageTime = 0 ∧
        handleSubmit chatbotConfig 500 "hi" (initState chatbotConfig 0) =
          initState chatbotConfig 0) :=
  ⟨⟨by decide, by decide, by decide⟩,
    C10_first_submit_dropped chatbotConfig 0 500 "hi" (by decide) (by decide) (by decide)⟩

/-! ## Claims about directive extraction -/

/-- The input of spec example 7. -/
def c4input : String :=
  "Pick one \x7b\x7bchoice:A\x7d\x7d \x7b\x7bchoice:B\x7d\x7d or \x7b\x7blink:https://x.com|Visit\x7d\x7d"

/-- C4 counterexample: on the spec's own example the choices and links come
out as claimed, but the cleaned text is not "Pick one": the literal word
"or" sits between the tags and survives tag removal. -/
theorem C4_counterexample :
    (extractDirectives c4input).2.1 = ["A", "B"] ∧
      (extractDirectives c4input).2.2 = [("https://x.com", "Visit")] ∧
      (extractDirectives c4input).1 ≠ "Pick one" := by
  refine ⟨by decide, by decide, by decide⟩

/-- C4 (amended): the example returns choices ["A", "B"] in order, links
[("https://x.com", "Visit")], and cleaned text "Pick one   or" — the text
outside the tags with the tags deleted in place and the ends trimmed. -/
theorem C4_amended_extract :
    extractDirectives c4input =
      ("Pick one   or", ["A", "B"], [("https://x.com", "Visit")]) := by
  decide

/-- The input of spec example 8: tag-free text with a run of blank lines. -/
def c5input : String := "plain text\n\n\n\nmore"

/-- C5 counterexample: a tag-free text is still rewritten by the
blank-line-collapsing replace, so the cleaned text differs from
`text.trim()`. -/
theorem C5_counterexample :
    (scanChoice c5input.data).1 = [] ∧
      (scanLink c5input.data).1 = [] ∧
      (extractDirectives c5input).1 ≠ jsTrimStr c5input := by
  refine ⟨by decide, by decide, by decide⟩

/-- C5 (amended): on any input in which neither tag grammar matches, both
directive lists are empty and the cleaned text is the input with runs of
blank lines collapsed and then trimmed; it equals `text.trim()` only when
the blank-line pattern does not occur either. -/
theorem C5_amended_no_tags (t : String)
    (h1 : (scanChoice t.data).1 = []) (h2 : (scanLink t.data).1 = []) :
    extractDirectives t = (String.mk (trimChars (collapseScan t.data)), [], []) := by
  have e1 : (scanChoice t.data).2 = t.data := scanChoiceF_no_match _ _ h1
  have e2 : (scanLink t.data).2 = t.data := scanLinkF_no_match _ _ h2
  simp only [extractDirectives, h1, e1, h2, e2, List.map_nil]

/-- Closed witness for C5 (amended) on the spec's example 8. -/
theorem C5_amended_no_tags_witness :
    ((scanChoice c5input.data).1 = [] ∧ (scanLink c5input.data).1 = []) ∧
      extractDirectives c5input =
        (String.mk (trimChars (collapseScan c5input.data)), [], []) :=
  ⟨⟨by decide, by decide⟩, C5_amended_no_tags c5input (by decide) (by decide)⟩

/-! ## Claims about error classification -/

/-- C1 counterexample: an error carrying `statusCode` 429 (but no matching
`status` and no matching message) is classified as a rate limit by the
source, while the claim's rule — status 429 or a matching message — says it
is not. -/
theorem C1_counterexample :
    isRateLimitError { status := none, statusCode := some 429, message := some "boom" } =
        true ∧
      claimIsRateLimitC1 { status := none, statusCode := some 429, message := some "boom" } =
        false := by
  refine ⟨by decide, by decide⟩

/-- C1 (amended): the classifier treats an error as a rate limit exactly
when `status` is 429, `statusCode` is 429, or the message contains
(case-insensitively) "429", "rate limit" or "too many requests"; on that
branch the flag is set, the countdown is set to the configured interval,
and once the scheduled callback fires — `interval` seconds later — both
reset; the two examples of the claim take this branch. -/
theorem C1_amended_classify (cfg : ChatConfig) (e e' : ErrorMessage) (s : ChatState)
    (t t' : Nat)
    (htimers : s.timers = []) (hrl : isRateLimitError e = true)
    (ht' : t + cfg.rateLimit.interval * 1000 ≤ t') :
    isRateLimitError e' = specIsRateLimitAmended e' ∧
      (step cfg s t (ChatEvent.chatError e)).isRateLimited = true ∧
      (step cfg s t (ChatEvent.chatError e)).rateLimitCountdown =
        some cfg.rateLimit.interval ∧
      (step cfg (step cfg s t (ChatEvent.chatError e)) t' ChatEvent.tick).isRateLimited =
        false ∧
      (step cfg (step cfg s t (ChatEvent.chatError e)) t' ChatEvent.tick).rateLimitCountdown =
        none ∧
      isRateLimitError { status := some 429, statusCode := none, message := none } = true ∧
      isRateLimitError ⟨none, none, some "Too Many Requests"⟩ = true := by
  have hs1 : step cfg s t (ChatEvent.chatError e) =
      { s with
        isRateLimited := true
        rateLimitCountdown := some cfg.rateLimit.interval
        timers := [⟨t + cfg.rateLimit.interval * 1000, TimerKind.rateLimitClear⟩] } := by
    simp [step, fireDue, onError, htimers, hrl]
  refine ⟨isRateLimitError_eq_spec e', by rw [hs1], by rw [hs1], ?_, ?_, by decide, by decide⟩
  · rw [hs1]
    simp [step, fireDue, ht', isRlTimer]
  · rw [hs1]
    simp [step, fireDue, ht', isRlTimer]

/-- Closed witness for C1 (amended): a bare status-429 error on the
freshly mounted widget, observed `interval` seconds later. -/
theorem C1_amended_classify_witness :
    ((initState chatbotConfig 0).timers = [] ∧
        isRateLimitError { status := some 429, statusCode := none, message := none } = true ∧
        0 + chatbotConfig.rateLimit.interval * 1000 ≤ 10000) ∧
      (isRateLimitError { status := none, statusCode := some 429, message := some "x" } =
          specIsRateLimitAmended
            { status := none, statusCode := some 429, message := some "x" } ∧
        (step chatbotConfig (initState chatbotConfig 0) 0
            (ChatEvent.chatError
              { status := some 429, statusCode := none, message := none })).isRateLimited =
          true ∧
        (step chatbotConfig (initState chatbotConfig 0) 0
            (ChatEvent.chatError
              { status := some 429, statusCode := none, message := none })).rateLimitCountdown =
          some chatbotConfig.rateLimit.interval ∧
        (step chatbotConfig
            (step chatbotConfig (initState chatbotConfig 0) 0
              (ChatEvent.chatError
                { status := some 429, statusCode := none, message := none }))
            10000 ChatEvent.tick).isRateLimited = false ∧
        (step chatbotConfig
            (step chatbotConfig (initState chatbotConfig 0) 0
              (ChatEvent.chatError
                { status := some 429, statusCode := none, message := none }))
            10000 ChatEvent.tick).rateLimitCountdown = none ∧
        isRateLimitError { status := some 429, statusCode := none, message := none } = true ∧
        isRateLimitError ⟨none, none, some "Too Many Requests"⟩ = true) :=
  ⟨⟨rfl, by decide, by decide⟩,
    C1_amended_classify chatbotConfig
      { status := some 429, statusCode := none, message := none }
      { status := none, statusCode := some 429, message := some "x" }
      (initState chatbotConfig 0) 0 10000 rfl (by decide) (by decide)⟩

/-- C6: an error not classified as a rate limit sets the countdown to
exactly 5, leaves the flag false, and the countdown clears once the
5-second callback fires; a valid submit made during the cooldown (after the
spam-guard window) is accepted — the user may retry immediately. -/
theorem C6_generic_error (cfg : ChatConfig) (e : ErrorMessage) (s : ChatState)
    (t t' u : Nat) (input : String)
    (hgen : isRateLimitError e = false)
    (hnorl : s.isRateLimited = false)
    (htimers : s.timers = [])
    (ht' : t + 5000 ≤ t')
    (hu : u < t + 5000)
    (hmin : cfg.rateLimit.minTimeBetweenMessages ≤ u - s.lastMessageTime)
    (hin1 : jsTrimStr input ≠ "") (hin2 : input.length ≤ cfg.rateLimit.maxMessageLength) :
    (step cfg s t (ChatEvent.chatError e)).rateLimitCountdown = some 5 ∧
      (step cfg s t (ChatEvent.chatError e)).isRateLimited = false ∧
      (step cfg (step cfg s t (ChatEvent.chatError e)) t' ChatEvent.tick).rateLimitCountdown =
        none ∧
      (step cfg (step cfg s t (ChatEvent.chatError e)) t' ChatEvent.tick).isRateLimited =
        false ∧
      (step cfg (step cfg s t (ChatEvent.chatError e)) u (ChatEvent.submit input)).messages =
        s.messages ++ [{ role := Role.user, text := input }] ∧
      isRateLimitError ⟨none, none, some "network failure"⟩ = false := by
  have hs1 : step cfg s t (ChatEvent.chatError e) =
      { s with
        rateLimitCountdown := some 5
        timers := [{ due := t + 5000, kind := TimerKind.genericClear }] } := by
    simp [step, fireDue, onError, htimers, hgen]
  have hnotdue : ¬ (t + 5000 ≤ u) := by omega
  refine ⟨by rw [hs1], by rw [hs1]; exact hnorl, ?_, ?_, ?_, by decide⟩
  · rw [hs1]
    simp [step, fireDue, ht', isRlTimer, isGenTimer]
  · rw [hs1]
    simp [step, fireDue, ht', isRlTimer, isGenTimer, hnorl]
  · rw [hs1]
    have hfd : fireDue u
        { s with
          rateLimitCountdown := some 5
          timers := [{ due := t + 5000, kind := TimerKind.genericClear }] } =
        { s with
          rateLimitCountdown := some 5
          timers := [{ due := t + 5000, kind := TimerKind.genericClear }] } := by
      simp [fireDue, hnotdue]
    show (handleSubmit cfg u input (fireDue u _)).messages = _
    rw [hfd]
    unfold handleSubmit sendMessageWithThrottle
    rw [if_pos ⟨hin1, hnorl, hin2⟩, if_neg (by simp; omega), if_neg (by simp [hnorl])]

/-! ## Claim C2: the cooldown invariant -/

/-- The claim's notion of an active generic cooldown at time `now` over a
timed event trace: some generic (non-rate-limit) error was classified less
than 5 seconds ago. -/
def genericCooldownActive (trace : List (Nat × ChatEvent)) (now : Nat) : Bool :=
  trace.any (fun p =>
    match p.2 with
    | ChatEvent.chatError e =>
      !(isRateLimitError e) && decide (p.1 ≤ now) && decide (now < p.1 + 5000)
    | _ => false)

/-- A trace breaking the claimed invariant: a generic error at t = 0 ms
followed by `clear()` at t = 1000 ms. -/
def c2trace : List (Nat × ChatEvent) :=
  [(0, ChatEvent.chatError ⟨none, none, some "network failure"⟩),
   (1000, ChatEvent.clear)]

/-- C2 counterexample: 1 second after a generic error — with its 5-second
cooldown still running per the claim's definition — a `clear()` leaves
`cooldownRemainingSeconds` at none and `rateLimited` false, so the claimed
biconditional fails in the reachable state. -/
theorem C2_counterexample :
    genericCooldownActive c2trace 1000 = true ∧
      (run chatbotConfig (initState chatbotConfig 0) c2trace).rateLimitCountdown = none ∧
      (run chatbotConfig (initState chatbotConfig 0) c2trace).isRateLimited = false := by
  refine ⟨by decide, by decide, by decide⟩

/-- C2 (amended): restricted to behaviours in which `classifyError` and
`clear` are only invoked while no cooldown timer is pending (cooldowns
never overlap and are never cleared mid-flight), the strengthened invariant
`InvC2` holds initially, is preserved by every step, and yields the claimed
biconditional: the countdown is non-none exactly when the widget is rate
limited or the pending cooldown timer is the generic 5-second one. -/
theorem C2_amended_invariant (cfg : ChatConfig) (mount now : Nat) (s : ChatState)
    (ev : ChatEvent) (hI : InvC2 s) (hev : stepAllowed s now ev) :
    InvC2 (initState cfg mount) ∧
      InvC2 (step cfg s now ev) ∧
      ((s.rateLimitCountdown ≠ none) ↔
        (s.isRateLimited = true ∨ timerKinds s = [TimerKind.genericClear])) := by
  have hI' : InvC2 (fireDue now s) := InvC2_fireDue now s hI
  refine ⟨Or.inr (Or.inr ⟨rfl, rfl, rfl⟩), ?_, ?_⟩
  · cases ev with
    | submit input =>
      have hp := handleSubmit_throttleFields cfg now input (fireDue now s)
      exact InvC2_congr _ _ hp.1 hp.2.1 hp.2.2 hI'
    | tick => exact hI'
    | chatError e =>
      have hT : (fireDue now s).timers = [] := hev
      have h0 : (fireDue now s).isRateLimited = false ∧
          (fireDue now s).rateLimitCountdown = none := by
        rcases hI' with ⟨h1, h2, h3⟩ | ⟨h1, h2, h3⟩ | ⟨h1, h2, h3⟩
        · rw [timerKinds, hT] at h3
          simp at h3
        · rw [timerKinds, hT] at h3
          simp at h3
        · exact ⟨h1, h2⟩
      by_cases hre : isRateLimitError e = true
      · left
        refine ⟨?_, ?_, ?_⟩ <;>
          simp [step, onError, hre, hT, timerKinds]
      · right; left
        rw [Bool.not_eq_true] at hre
        refine ⟨?_, ?_, ?_⟩ <;>
          simp [step, onError, hre, hT, timerKinds, h0.1]
    | clear =>
      have hT : (fireDue now s).timers = [] := hev
      right; right
      refine ⟨rfl, rfl, ?_⟩
      show (clearMessages cfg (fireDue now s)).timers = []
      rw [clearMessages]
      exact hT
  · rcases hI with ⟨h1, h2, h3⟩ | ⟨h1, h2, h3⟩ | ⟨h1, h2, h3⟩
    · exact ⟨fun _ => Or.inl h1, fun _ => h2⟩
    · exact ⟨fun _ => Or.inr h3, fun _ => h2⟩
    · constructor
      · intro hne
        exact absurd h2 hne
      · rintro (hl | hr)
        · rw [h1] at hl
          exact Bool.noConfusion hl
        · rw [timerKinds, h3] at hr
          exact List.noConfusion hr

/-- Closed witness for C2 (amended) at the initial state with a tick. -/
theorem C2_amended_invariant_witness :
    (InvC2 (initState chatbotConfig 0) ∧
        stepAllowed (initState chatbotConfig 0) 0 ChatEvent.tick) ∧
      (InvC2 (initState chatbotConfig 0) ∧
        InvC2 (step chatbotConfig (initState chatbotConfig 0) 0 ChatEvent.tick) ∧
        (((initState chatbotConfig 0).rateLimitCountdown ≠ none) ↔
          ((initState chatbotConfig 0).isRateLimited = true ∨
            timerKinds (initState chatbotConfig 0) = [TimerKind.genericClear]))) :=
  ⟨⟨Or.inr (Or.inr ⟨rfl, rfl, rfl⟩), trivial⟩,
    C2_amended_invariant chatbotConfig 0 0 (initState chatbotConfig 0) ChatEvent.tick
      (Or.inr (Or.inr ⟨rfl, rfl, rfl⟩)) trivial⟩

/-- Closed witness for C6: a network failure at t = 0 on the fresh widget,
a retry at t = 1000 ms, and the callback firing at t = 5000 ms. -/
theorem C6_generic_error_witness :
    (isRateLimitError ⟨none, none, some "network failure"⟩ = false ∧
        (initState chatbotConfig 0).isRateLimited = false ∧
        (initState chatbotConfig 0).timers = [] ∧
        0 + 5000 ≤ 5000 ∧ 1000 < 0 + 5000 ∧
        chatbotConfig.rateLimit.minTimeBetweenMessages ≤
          1000 - (initState chatbotConfig 0).lastMessageTime ∧
        jsTrimStr "hi" ≠ "" ∧
        ("hi" : String).length ≤ chatbotConfig.rateLimit.maxMessageLength) ∧
      ((step chatbotConfig (initState chatbotConfig 0) 0
            (ChatEvent.chatError ⟨none, none, some "network failure"⟩)).rateLimitCountdown =
          some 5 ∧
        (step chatbotConfig (initState chatbotConfig 0) 0
            (ChatEvent.chatError ⟨none, none, some "network failure"⟩)).isRateLimited =
          false ∧
        (step chatbotConfig
            (step chatbotConfig (initState chatbotConfig 0) 0
              (ChatEvent.chatError ⟨none, none, some "network failure"⟩))
            5000 ChatEvent.tick).rateLimitCountdown = none ∧
        (step chatbotConfig
            (step chatbotConfig (initState chatbotConfig 0) 0
              (ChatEvent.chatError ⟨none, none, some "network failure"⟩))
            5000 ChatEvent.tick).isRateLimited = false ∧
        (step chatbotConfig
            (step chatbotConfig (initState chatbotConfig 0) 0
              (ChatEvent.chatError ⟨none, none, some "network failure"⟩))
            1000 (ChatEvent.submit "hi")).messages =
          (initState chatbotConfig 0).messages ++ [{ role := Role.user, text := "hi" }] ∧
        isRateLimitError ⟨none, none, some "network failure"⟩ = false) :=
  ⟨⟨by decide, rfl, rfl, by decide, by decide, by decide, by decide, by decide⟩,
    C6_generic_error chatbotConfig ⟨none, none, some "network failure"⟩
      (initState chatbotConfig 0) 0 5000 1000 "hi"
      (by decide) rfl rfl (by decide) (by decide) (by decide) (by decide) (by decide)⟩
